import Mathlib

/-!
Verification of the submission-tracking bot (src/bot.py) against its
natural-language specification.  The Python source is shallowly embedded:
the in-memory dictionaries `pending`, `media_groups`, `reasons_pending`,
`admin_pending` become association lists, the SQLite tables become lists of
records, wall-clock time becomes `Rat`, and each aiogram handler becomes a
pure function from state to state together with a list of observable
emissions (submissions written, absence-interview prompts, confirmation
messages).  Python strings are modelled as Lean `String`; Python slicing,
`len`, `strip`, and `lower` (which operate on code points) are modelled on
`String.data` (`List Char`).
-/

namespace BotLEV

/-! ### Association-list helpers (model of Python dict operations) -/

/-- Lookup of a key in an association list (Python `d.get(k)` / `d[k]`). -/
def alookup {α β : Type} [DecidableEq α] (k : α) : List (α × β) → Option β
  | [] => none
  | (a, b) :: rest => if a = k then some b else alookup k rest

/-- Removal of a key (Python `d.pop(k, None)`). -/
def aerase {α β : Type} [DecidableEq α] (k : α) : List (α × β) → List (α × β)
  | [] => []
  | (a, b) :: rest => if a = k then aerase k rest else (a, b) :: aerase k rest

/-- Assignment `d[k] = v`: updates the first binding in place, or appends a
new binding at the end, exactly like insertion-ordered Python dicts. -/
def aset {α β : Type} [DecidableEq α] (k : α) (v : β) : List (α × β) → List (α × β)
  | [] => [(k, v)]
  | (a, b) :: rest => if a = k then (k, v) :: rest else (a, b) :: aset k v rest

@[simp] theorem alookup_nil {α β : Type} [DecidableEq α] (k : α) :
    alookup (β := β) k [] = none := rfl

@[simp] theorem alookup_cons {α β : Type} [DecidableEq α] (k a : α) (b : β)
    (l : List (α × β)) :
    alookup k ((a, b) :: l) = if a = k then some b else alookup k l := rfl

theorem alookup_aset_self {α β : Type} [DecidableEq α] (k : α) (v : β)
    (l : List (α × β)) : alookup k (aset k v l) = some v := by
  induction l with
  | nil => simp [aset, alookup]
  | cons hd tl ih =>
    obtain ⟨a, b⟩ := hd
    by_cases h : a = k <;> simp [aset, alookup, h, ih]

theorem alookup_aset_ne {α β : Type} [DecidableEq α] {k k' : α} (v : β)
    (l : List (α × β)) (h : k ≠ k') : alookup k' (aset k v l) = alookup k' l := by
  induction l with
  | nil => simp [aset, alookup, h]
  | cons hd tl ih =>
    obtain ⟨a, b⟩ := hd
    by_cases ha : a = k
    · subst ha; simp [aset, alookup, h]
    · simp [aset, alookup, ha, ih]

theorem alookup_aerase_self {α β : Type} [DecidableEq α] (k : α)
    (l : List (α × β)) : alookup k (aerase k l) = none := by
  induction l with
  | nil => simp [aerase]
  | cons hd tl ih =>
    obtain ⟨a, b⟩ := hd
    by_cases h : a = k <;> simp [aerase, alookup, h, ih]

theorem alookup_aerase_ne {α β : Type} [DecidableEq α] {k k' : α}
    (l : List (α × β)) (h : k ≠ k') : alookup k' (aerase k l) = alookup k' l := by
  induction l with
  | nil => simp [aerase]
  | cons hd tl ih =>
    obtain ⟨a, b⟩ := hd
    by_cases ha : a = k
    · subst ha; simp [aerase, alookup, h, ih]
    · simp [aerase, alookup, ha, ih]

/-! ### Python string operations on code points -/

/-- Python `len(s)` (number of code points). -/
def pyLen (s : String) : Nat := s.data.length

/-- Python `s[:n]` (first `n` code points). -/
def pySlice (n : Nat) (s : String) : String := ⟨s.data.take n⟩

/-- Python `a + b` on strings, written explicitly on code-point lists. -/
def pyCat (a b : String) : String := ⟨a.data ++ b.data⟩

/-- Python `s.strip()` restricted to whitespace recognised by `Char.isWhitespace`. -/
def pyStrip (s : String) : String :=
  ⟨((s.data.dropWhile Char.isWhitespace).reverse.dropWhile Char.isWhitespace).reverse⟩

/-- Lower-casing of one character: ASCII plus the Russian alphabet, which is
all that the keyword classifier of the source compares against. -/
def ruLower (c : Char) : Char :=
  if 0x410 ≤ c.toNat ∧ c.toNat ≤ 0x42F then Char.ofNat (c.toNat + 0x20)
  else if c.toNat = 0x401 then Char.ofNat 0x451
  else c.toLower

/-- Python `s.lower()` (restricted to ASCII and Russian letters). -/
def pyLower (s : String) : String := ⟨s.data.map ruLower⟩

/-- Python `s.startswith(p)`. -/
def pyStarts (p s : String) : Bool := p.data.isPrefixOf s.data

/-- Python `s.split(chr, 1)[0]` for a newline: the first line of `s`. -/
def firstLine (s : String) : String := ⟨s.data.takeWhile (fun c => c ≠ '\n')⟩

/-- The summary truncation of `handle_text` (src/bot.py:787):
`text if len(text) <= 300 else text[:297] + "..."`. -/
def summarize300 (t : String) : String :=
  if pyLen t ≤ 300 then t else pyCat (pySlice 297 t) "..."

/-- The caption truncation of `handle_photo` (src/bot.py:862):
`(caption[:200] + "...") if len(caption) > 200 else caption or "Фото"`. -/
def photoSummary (caption : String) : String :=
  if 200 < pyLen caption then pyCat (pySlice 200 caption) "..."
  else if caption = "" then "Фото" else caption

/-- Same truncation without the `or "Фото"` default (src/bot.py:893). -/
def photoSummaryKw (caption : String) : String :=
  if 200 < pyLen caption then pyCat (pySlice 200 caption) "..." else caption

theorem pyLen_pyCat (a b : String) : pyLen (pyCat a b) = pyLen a + pyLen b := by
  simp [pyLen, pyCat]

theorem pyLen_pySlice (n : Nat) (s : String) :
    pyLen (pySlice n s) = min n (pyLen s) := by
  simp [pyLen, pySlice]

theorem pyLen_summarize300 (t : String) : pyLen (summarize300 t) ≤ 300 := by
  unfold summarize300
  by_cases h : pyLen t ≤ 300
  · simp [h]
  · have : pyLen (pyCat (pySlice 297 t) "...") = min 297 (pyLen t) + 3 := by
      rw [pyLen_pyCat, pyLen_pySlice]; rfl
    simp only [h, if_false, this]
    omega

theorem pyLen_photoSummary (c : String) : pyLen (photoSummary c) ≤ 300 := by
  unfold photoSummary
  by_cases h : 200 < pyLen c
  · have : pyLen (pyCat (pySlice 200 c) "...") = min 200 (pyLen c) + 3 := by
      rw [pyLen_pyCat, pyLen_pySlice]; rfl
    simp only [h, if_true, this]
    omega
  · by_cases he : c = ""
    · simp [h, he, pyLen]
    · simp only [h, if_false, he]
      omega

theorem pyLen_photoSummaryKw (c : String) : pyLen (photoSummaryKw c) ≤ 300 := by
  unfold photoSummaryKw
  by_cases h : 200 < pyLen c
  · have : pyLen (pyCat (pySlice 200 c) "...") = min 200 (pyLen c) + 3 := by
      rw [pyLen_pyCat, pyLen_pySlice]; rfl
    simp only [h, if_true, this]
    omega
  · simp only [h, if_false]
    omega

/-! ### Data model (src/bot.py §DB and in-memory flows) -/

/-- One topic of the `SECTIONS` table (src/bot.py:204-217). -/
structure Topic where
  id : String
  title : String
  dz_allowed : Bool
deriving DecidableEq, Repr

/-- The topic reference stored inside a pending flow
(`pending[uid]["topic"] = ⟨id, title⟩`, src/bot.py:738). -/
structure TopicRef where
  id : String
  title : String
deriving DecidableEq, Repr

/-- A pending intake flow (`pending[uid]`, src/bot.py:663,669,714,738).
The dict keys `section` and `topic` may be absent, hence `Option`;
`ts` is the creation timestamp stored by `cmd_send_dz`/`cmd_send_conspect`. -/
structure PendingIntake where
  type : String
  sect : Option String := none
  topic : Option TopicRef := none
  ts : Rat := 0
deriving DecidableEq, Repr

/-- A row of the `users` table. -/
structure UserRec where
  id : Nat
  username : String
  first_name : String
deriving DecidableEq, Repr

/-- A row of the `submissions` table.  `ts` is modelled as a rational
wall-clock time: the source stores an ISO timestamp string whose
lexicographic order coincides with chronological order. -/
structure Submission where
  user_id : Nat
  type : String
  sect : String
  topic_id : String
  topic_title : String
  content_type : String
  content_summary : String
  photo_file_id : String
  message_id : Option Nat
  date : String
  ts : Rat
deriving DecidableEq, Repr

/-- An album buffer (`media_groups[key]`, src/bot.py:847-848). -/
structure MediaGroupEntry where
  file_ids : List String
  caption : String
  last_update : Rat
  pending_snapshot : Option PendingIntake
  uid : Nat
deriving DecidableEq, Repr

/-- The persistent store: the three SQLite tables plus the per-user content
files kept under `CONSPECTS_DIR/<user_id>/` (a file is modelled as its
owner id together with an opaque name). -/
structure DB where
  users : List UserRec
  submissions : List Submission
  miss_reasons : List (Nat × String × String)
  files : List (Nat × String)
deriving DecidableEq, Repr

/-- Whole process state: store plus the four in-memory dicts.  `admin_pending`
values are the pending admin action names. -/
structure BotState where
  db : DB
  pending : List (Nat × PendingIntake)
  media_groups : List ((Nat × String) × MediaGroupEntry)
  reasons_pending : List (Nat × String)
  admin_pending : List (Nat × String)
deriving DecidableEq, Repr

/-- Which branch of the source code produced a submission.  This tag is pure
instrumentation for stating provenance properties; it does not influence any
state transition. -/
inductive Branch where
  | pendingText
  | fallbackText
  | pendingPhoto
  | fallbackPhoto
  | album
deriving DecidableEq, Repr

/-- Observable outputs of one handler invocation. -/
inductive Emission where
  /-- A submission row was inserted (with the branch that made it). -/
  | submissionMade (branch : Branch) (sub : Submission)
  /-- The confirmation sent after storing an absence reason (src/bot.py:774). -/
  | reasonSaved (uid : Nat) (date : String)
  /-- The absence-interview prompt of `ask_missed_reason` (src/bot.py:1357). -/
  | prompt (uid : Nat)
deriving DecidableEq, Repr

/-! ### The SECTIONS topic table (src/bot.py:204-217) -/

def osnovyTopics : List Topic :=
  [⟨"op1", "Вводный урок", true⟩,
   ⟨"op2", "Условия и целочисленные операторы", false⟩,
   ⟨"op3", "Цикл for", true⟩,
   ⟨"op4", "Цикл while", true⟩,
   ⟨"op5", "Практика: цикл for и while", false⟩,
   ⟨"op6", "Строки и срезы", false⟩,
   ⟨"op7", "Списки и генераторы", true⟩]

def egeTopics : List Topic :=
  (List.range 27).map (fun n =>
    ⟨pyCat "ege" (toString (n + 1)), pyCat "Задание " (toString (n + 1)), true⟩)

def SECTIONS : List (String × List Topic) :=
  [("Основы Питона", osnovyTopics), ("ЕГЭ 1-27", egeTopics)]

/-- `SECTIONS.get(section, [])`. -/
def sectionTopics (sec : String) : List Topic :=
  (((SECTIONS.find? (fun p => p.1 = sec)).map Prod.snd)).getD []

/-! ### Store helpers -/

/-- `ensure_user_record_obj` / `ensure_user_record_by_id`
(src/bot.py:221-240): INSERT OR IGNORE followed by an unconditional UPDATE
of the name fields. -/
def ensure_user (db : DB) (u : UserRec) : DB :=
  if db.users.any (fun w => w.id = u.id) then
    { db with users := db.users.map (fun w =>
        if w.id = u.id then { w with username := u.username, first_name := u.first_name }
        else w) }
  else { db with users := db.users ++ [u] }

/-- `add_submission_obj` (src/bot.py:279-294): ensures the user row, then
inserts the submission. -/
def add_submission (db : DB) (u : UserRec) (s : Submission) : DB :=
  let db := ensure_user db u
  { db with submissions := db.submissions ++ [s] }

/-- `INSERT OR REPLACE INTO miss_reasons` keyed by `(user_id, date)`
(src/bot.py:769): the REPLACE deletes the old row and inserts the new one. -/
def upsert_reason (db : DB) (uid : Nat) (d reason : String) : DB :=
  { db with miss_reasons :=
      (db.miss_reasons.filter (fun r => ¬(r.1 = uid ∧ r.2.1 = d))) ++ [(uid, d, reason)] }

/-- The stored reason for `(uid, d)`, if any. -/
def reasonFor (db : DB) (uid : Nat) (d : String) : Option String :=
  (db.miss_reasons.find? (fun r => r.1 = uid ∧ r.2.1 = d)).map (fun r => r.2.2)

/-! ### Menu button texts (reply-keyboard labels, src/bot.py:344-349) -/

def btnSendDz : String := "📚 Сдать ДЗ"
def btnSendConspect : String := "📘 Сдать конспект"
def btnMyConspects : String := "📁 Мои конспекты"
def btnMainMenu : String := "📌 Главное меню"
def btnAdminPanel : String := "🛠️ Админ-панель"

/-- The tuple tested at src/bot.py:763. -/
def menuButtonTexts : List String :=
  [btnSendDz, btnSendConspect, btnMyConspects, btnMainMenu]

/-! ### Callback handlers -/

/-- `cb_section_choose` (src/bot.py:707-717): records the chosen section in
the pending flow; a stale press (no pending flow) is a no-op on the state. -/
def cb_section_choose (st : BotState) (uid : Nat) (sec : String) : BotState :=
  match alookup uid st.pending with
  | none => st
  | some p => { st with pending := aset uid { p with sect := some sec } st.pending }

/-- `cb_topic_choose` (src/bot.py:720-742): rejects stale presses, unknown
topics, and homework on a topic with `dz_allowed = False`; otherwise records
the topic. -/
def cb_topic_choose (st : BotState) (uid : Nat) (sec : String) (topic_id : String) :
    BotState :=
  match alookup uid st.pending with
  | none => st
  | some p =>
    if p.sect.isNone then st
    else
      match (sectionTopics sec).find? (fun t => t.id = topic_id) with
      | none => st
      | some t =>
        if p.type = "dz" ∧ ¬t.dz_allowed then st
        else { st with pending := aset uid { p with topic := some ⟨t.id, t.title⟩ } st.pending }

/-- `cb_cancel` (src/bot.py:745-752): discards both pending dicts for the
user. -/
def cb_cancel (st : BotState) (uid : Nat) : BotState :=
  { st with pending := aerase uid st.pending, admin_pending := aerase uid st.admin_pending }

/-! ### Text handling -/

/-- The keyword-fallback classifier of `handle_text` (src/bot.py:807-830):
`text` has already been stripped. -/
def text_fallback (today : String) (st : BotState) (u : UserRec) (text : String)
    (msg_id : Nat) (now : Rat) : BotState × List Emission :=
  let low := pyLower text
  if pyStarts "дз" low ∨ pyStarts "конспект" low then
    let kind := if pyStarts "дз" low then "dz" else "conspect"
    let sub : Submission :=
      { user_id := u.id, type := kind, sect := "Без раздела", topic_id := "none",
        topic_title := pySlice 50 (firstLine text), content_type := "text",
        content_summary := summarize300 text, photo_file_id := "",
        message_id := some msg_id, date := today, ts := now }
    let db := add_submission st.db u sub
    let db := if kind = "conspect" then { db with files := db.files ++ [(u.id, "text")] }
              else db
    ({ st with db := db }, [.submissionMade .fallbackText sub])
  else (st, [])

/-- The part of `handle_text` from the waiting-state interception onward
(src/bot.py:766-833), applied to the state left by the button-text pop.
`storeOk` models whether the `miss_reasons` INSERT at src/bot.py:769
succeeds (its failure is swallowed by the `except` clause). -/
def handle_text_rest (today : String) (st : BotState) (u : UserRec) (text : String)
    (msg_id : Nat) (now : Rat) (storeOk : Bool) : BotState × List Emission :=
  match alookup u.id st.reasons_pending with
  | some miss_date =>
    let st := { st with reasons_pending := aerase u.id st.reasons_pending }
    let st := if storeOk then { st with db := upsert_reason st.db u.id miss_date text }
              else st
    (st, [.reasonSaved u.id miss_date])
  | none =>
    if (alookup u.id st.admin_pending).isSome then (st, [])
    else
      match alookup u.id st.pending with
      | some p =>
        match p.sect, p.topic with
        | some sec, some top =>
          let sub : Submission :=
            { user_id := u.id, type := p.type, sect := sec, topic_id := top.id,
              topic_title := top.title, content_type := "text",
              content_summary := summarize300 text, photo_file_id := "",
              message_id := some msg_id, date := today, ts := now }
          let db := add_submission st.db u sub
          let db := if p.type = "conspect" then
                      { db with files := db.files ++ [(u.id, "text")] } else db
          ({ st with pending := aerase u.id st.pending, db := db },
           [.submissionMade .pendingText sub])
        | _, _ => text_fallback today st u text msg_id now
      | none => text_fallback today st u text msg_id now

/-- The body of `handle_text` (src/bot.py:755-833): short-circuit on the
statistics label, pop the pending flow on a menu button text
(src/bot.py:763-764, unreachable through the dispatcher but kept for
fidelity), then the rest.  `raw` is the message text as delivered. -/
def handle_text_core (today : String) (st : BotState) (u : UserRec) (raw : String)
    (msg_id : Nat) (now : Rat) (storeOk : Bool) : BotState × List Emission :=
  if raw = "📊 Статистика" then (st, [])
  else
    handle_text_rest today
      (if menuButtonTexts.contains raw then
        { st with pending := aerase u.id st.pending } else st)
      u (pyStrip raw) msg_id now storeOk

/-- Dispatch of an inbound text message, mirroring aiogram registration
order: the command and reply-button handlers registered before `handle_text`
(src/bot.py:653-703) win, everything else reaches `handle_text`. -/
def dispatch_text (today : String) (st : BotState) (u : UserRec) (raw : String)
    (msg_id : Nat) (now : Rat) (storeOk : Bool) : BotState × List Emission :=
  if raw = "/start" ∨ raw = "/menu" then
    ({ st with db := ensure_user st.db u }, [])
  else if raw = btnSendDz then
    ({ st with pending := aset u.id { type := "dz", ts := now } st.pending }, [])
  else if raw = btnSendConspect then
    ({ st with pending := aset u.id { type := "conspect", ts := now } st.pending }, [])
  else if raw = btnMyConspects ∨ raw = btnMainMenu ∨ raw = btnAdminPanel then
    (st, [])
  else handle_text_core today st u raw msg_id now storeOk

/-! ### Photo handling -/

/-- The caption-keyword fallback of `handle_photo` (src/bot.py:890-916). -/
def photo_fallback (today : String) (st : BotState) (u : UserRec)
    (file_id caption : String) (msg_id : Nat) (now : Rat) : BotState × List Emission :=
  let low := pyLower caption
  if pyStarts "дз" low ∨ pyStarts "конспект" low then
    let kind := if pyStarts "дз" low then "dz" else "conspect"
    let summary := photoSummaryKw caption
    let sub : Submission :=
      { user_id := u.id, type := kind, sect := "Без раздела", topic_id := "none",
        topic_title := pySlice 50 (firstLine summary), content_type := "photo",
        content_summary := summary, photo_file_id := file_id,
        message_id := some msg_id, date := today, ts := now }
    let db := add_submission st.db u sub
    let db := if kind = "conspect" then { db with files := db.files ++ [(u.id, file_id)] }
              else db
    ({ st with db := db }, [.submissionMade .fallbackPhoto sub])
  else (st, [])

/-- `handle_photo` (src/bot.py:836-919).  A photo carrying a media-group id
is buffered in `media_groups` (snapshotting, not consuming, the pending
flow); a single photo finalizes the pending flow or falls back to the
caption keyword classifier. -/
def handle_photo (today : String) (st : BotState) (u : UserRec) (mgid : Option String)
    (file_id caption : String) (msg_id : Nat) (now : Rat) : BotState × List Emission :=
  match mgid with
  | some g =>
    let key := (u.id, g)
    match alookup key st.media_groups with
    | none =>
      let fresh : MediaGroupEntry :=
        { file_ids := [file_id], caption := caption, last_update := now,
          pending_snapshot := alookup u.id st.pending, uid := u.id }
      ({ st with media_groups := aset key fresh st.media_groups }, [])
    | some entry =>
      let entry' : MediaGroupEntry :=
        { entry with file_ids := entry.file_ids ++ [file_id],
                     caption := if caption ≠ "" then caption else entry.caption,
                     last_update := now }
      ({ st with media_groups := aset key entry' st.media_groups }, [])
  | none =>
    match alookup u.id st.pending with
    | some p =>
      match p.sect, p.topic with
      | some sec, some top =>
        let summary := photoSummary caption
        let sub : Submission :=
          { user_id := u.id, type := p.type, sect := sec, topic_id := top.id,
            topic_title := top.title, content_type := "photo",
            content_summary := summary, photo_file_id := file_id,
            message_id := some msg_id, date := today, ts := now }
        let db := add_submission st.db u sub
        let db := if p.type = "conspect" then
                    { db with files := db.files ++ [(u.id, file_id)] } else db
        ({ st with pending := aerase u.id st.pending, db := db },
         [.submissionMade .pendingPhoto sub])
      | _, _ => photo_fallback today st u file_id caption msg_id now
    | none => photo_fallback today st u file_id caption msg_id now

/-! ### Album finalization -/

/-- `p_snapshot.get("type", "dz")` with `p_snapshot = snapshot or ⦃⦄`. -/
def snapType : Option PendingIntake → String
  | none => "dz"
  | some p => p.type

/-- `p_snapshot.get("section", "Без раздела")`. -/
def snapSection : Option PendingIntake → String
  | none => "Без раздела"
  | some p => p.sect.getD "Без раздела"

/-- `p_snapshot.get("topic", ⦃id: "none", title: "Альбом"⦄)`. -/
def snapTopic : Option PendingIntake → TopicRef
  | none => ⟨"none", "Альбом"⟩
  | some p => p.topic.getD ⟨"none", "Альбом"⟩

/-- The submission synthesized for one album buffer
(src/bot.py:932-942). -/
def mk_album_sub (e : MediaGroupEntry) (today : String) (now : Rat) : Submission :=
  { user_id := e.uid,
    type := snapType e.pending_snapshot,
    sect := snapSection e.pending_snapshot,
    topic_id := (snapTopic e.pending_snapshot).id,
    topic_title := (snapTopic e.pending_snapshot).title,
    content_type := "photo_album",
    content_summary :=
      if e.caption = "" then
        pyCat (pyCat "Альбом из " (toString e.file_ids.length)) " фото"
      else e.caption,
    photo_file_id := String.intercalate ";" e.file_ids,
    message_id := none,
    date := today, ts := now }

/-- Finalization of one buffer inside the sweep loop: ensure the user row
(with blank names, as the source does via `fake_user`), insert the
submission, save the files when the snapshot kind is conspect, and pop the
buffer. -/
def finalize_group (today : String) (now : Rat) (st : BotState)
    (key : Nat × String) (e : MediaGroupEntry) : BotState × Emission :=
  let sub := mk_album_sub e today now
  let db := add_submission (ensure_user st.db ⟨e.uid, "", ""⟩) ⟨e.uid, "", ""⟩ sub
  let db := if sub.type = "conspect" then
              { db with files := db.files ++ e.file_ids.map (fun fid => (e.uid, fid)) }
            else db
  ({ st with db := db, media_groups := aerase key st.media_groups },
   .submissionMade .album sub)

/-- One iteration of the sweep loop: re-fetch the buffer for `key` and
finalize it when it has been quiet for more than 1.5 seconds. -/
def sweep_fold (today : String) (now : Rat) (acc : BotState × List Emission)
    (key : Nat × String) : BotState × List Emission :=
  match alookup key acc.1.media_groups with
  | none => acc
  | some e =>
    if now - e.last_update > 1.5 then
      let r := finalize_group today now acc.1 key e
      (r.1, acc.2 ++ [r.2])
    else acc

/-- `process_media_groups` (src/bot.py:923-973): iterate over the buffered
keys; every buffer quiet for more than 1.5 seconds is finalized and removed. -/
def process_media_groups (today : String) (st : BotState) (now : Rat) :
    BotState × List Emission :=
  (st.media_groups.map Prod.fst).foldl (sweep_fold today now) (st, [])

/-! ### Reconciliation and reporting -/

/-- `ask_missed_reason` (src/bot.py:1339-1363): prompt every known user
without a submission dated `dstr`, registering the waiting-state first.
Recorded `miss_reasons` are not consulted.  Message delivery is modelled as
succeeding (on failure the source merely removes the waiting-state again). -/
def ask_missed_reason (st : BotState) (dstr : String) : BotState × List Emission :=
  let submitted := (st.db.submissions.filter (fun s => s.date = dstr)).map (fun s => s.user_id)
  let to_ask := (st.db.users.map (fun u => u.id)).filter (fun uid => ¬submitted.contains uid)
  (to_ask.foldl (fun s uid => { s with reasons_pending := aset uid dstr s.reasons_pending }) st,
   to_ask.map Emission.prompt)

/-- One row of the daily summary sheet. -/
structure ReportRow where
  user_id : Nat
  username : String
  date : String
  dz_submitted : Nat
  conspect_submitted : Nat
  miss_reason : String
  task_flag : String
  message_id : Option Nat
deriving DecidableEq, Repr

/-- Insertion into a list sorted by user id (`ORDER BY id`). -/
def insertById (u : UserRec) : List UserRec → List UserRec
  | [] => [u]
  | v :: rest => if u.id ≤ v.id then u :: v :: rest else v :: insertById u rest

def sortById (l : List UserRec) : List UserRec := l.foldr insertById []

/-- The most recent submission of `uid` on `dstr`
(`ORDER BY ts DESC LIMIT 1`; on equal timestamps the later row wins). -/
def lastSubFor (db : DB) (uid : Nat) (dstr : String) : Option Submission :=
  (db.submissions.filter (fun s => s.user_id = uid ∧ s.date = dstr)).foldl
    (fun acc s => match acc with
      | none => some s
      | some m => if m.ts ≤ s.ts then some s else some m) none

/-- `submissions_for_date` (src/bot.py:449-488): one summary row per user
row, flags from the distinct submission types of the day, reason from
`miss_reasons`, task flag and message id from the day's last submission. -/
def submissions_for_date (db : DB) (dstr : String) : List ReportRow :=
  (sortById db.users).map (fun u =>
    let types := (db.submissions.filter
        (fun s => s.user_id = u.id ∧ s.date = dstr)).map (fun s => s.type)
    let trow := lastSubFor db u.id dstr
    { user_id := u.id,
      username := if u.username ≠ "" then u.username
                  else if u.first_name ≠ "" then u.first_name else "",
      date := dstr,
      dz_submitted := if types.contains "dz" then 1 else 0,
      conspect_submitted := if types.contains "conspect" then 1 else 0,
      miss_reason := (reasonFor db u.id dstr).getD "",
      task_flag :=
        match trow with
        | none => ""
        | some s => if s.topic_id ≠ "" then s.topic_id
                    else if s.topic_title ≠ "" then s.topic_title else "",
      message_id :=
        match trow with
        | none => none
        | some s => match s.message_id with
          | none => none
          | some m => if m = 0 then none else some m })

/-- The deletion cascade of `delete_user_submissions` (src/bot.py:1107-1123),
after the identifier has been resolved to a user id: delete the user's
submissions, miss reasons, user row, and content directory. -/
def delete_user_submissions (db : DB) (target_uid : Nat) : DB :=
  { users := db.users.filter (fun u => u.id ≠ target_uid),
    submissions := db.submissions.filter (fun s => s.user_id ≠ target_uid),
    miss_reasons := db.miss_reasons.filter (fun r => r.1 ≠ target_uid),
    files := db.files.filter (fun f => f.1 ≠ target_uid) }

/-! ### Event traces -/

/-- An inbound event.  Every message event carries its sender, a message id
and a wall-clock time; `text` additionally carries the `storeOk` flag
modelling whether a miss-reason store write triggered by it succeeds. -/
inductive Event where
  | text (u : UserRec) (raw : String) (msg_id : Nat) (now : Rat) (storeOk : Bool)
  | photo (u : UserRec) (mgid : Option String) (file_id caption : String)
      (msg_id : Nat) (now : Rat)
  | chooseSection (u : UserRec) (sec : String)
  | chooseTopic (u : UserRec) (sec : String) (topic_id : String)
  | cancel (u : UserRec)
  | sweep (now : Rat)
deriving DecidableEq, Repr

/-- One dispatcher step. -/
def step (today : String) (st : BotState) : Event → BotState × List Emission
  | .text u raw msg_id now ok => dispatch_text today st u raw msg_id now ok
  | .photo u mgid fid cap msg_id now => handle_photo today st u mgid fid cap msg_id now
  | .chooseSection u sec => (cb_section_choose st u.id sec, [])
  | .chooseTopic u sec tid => (cb_topic_choose st u.id sec tid, [])
  | .cancel u => (cb_cancel st u.id, [])
  | .sweep now => process_media_groups today st now

/-- Run a trace of events, accumulating emissions. -/
def run (today : String) (st : BotState) : List Event → BotState × List Emission
  | [] => (st, [])
  | e :: es =>
    let r := step today st e
    let r' := run today r.1 es
    (r'.1, r.2 ++ r'.2)

theorem run_append (today : String) (st : BotState) (a b : List Event) :
    run today st (a ++ b) =
      ((run today (run today st a).1 b).1,
       (run today st a).2 ++ (run today (run today st a).1 b).2) := by
  induction a generalizing st with
  | nil => simp [run]
  | cons e es ih => simp [run, ih, List.append_assoc]

/-! ### General claims: theorems, counterexamples, witnesses -/

/-- C4: while `kind = dz`, choosing a topic with `dz_allowed = False` is
rejected: the state is returned unchanged, so no Submission is created and
the PendingIntake keeps its kind and section with the rejected topic not
recorded; the user may retry (src/bot.py:735-737). -/
theorem C4_dz_disallowed_topic_rejected (st : BotState) (uid : Nat)
    (sec topic_id : String) (p : PendingIntake) (t : Topic)
    (hp : alookup uid st.pending = some p)
    (hdz : p.type = "dz")
    (hsec : p.sect.isSome = true)
    (ht : (sectionTopics sec).find? (fun x => x.id = topic_id) = some t)
    (hna : t.dz_allowed = false) :
    cb_topic_choose st uid sec topic_id = st := by
  obtain ⟨s, hs⟩ := Option.isSome_iff_exists.mp hsec
  unfold cb_topic_choose
  rw [hp]
  simp [hs, ht, hdz, hna]

def pC4 : PendingIntake := { type := "dz", sect := some "Основы Питона" }

def stC4 : BotState := ⟨⟨[⟨1, "", ""⟩], [], [], []⟩, [(1, pC4)], [], [], []⟩

/-- C4 witness: topic `op2` has `dz_allowed = False`; choosing it during a
homework flow leaves the state untouched. -/
theorem C4_witness : cb_topic_choose stC4 1 "Основы Питона" "op2" = stC4 :=
  C4_dz_disallowed_topic_rejected stC4 1 "Основы Питона" "op2" pC4
    ⟨"op2", "Условия и целочисленные операторы", false⟩
    (by decide) (by decide) (by decide) (by decide) (by decide)

/-- C2 (amended): `ask_missed_reason` prompts exactly the known users with
no submission dated that day; a recorded AbsenceReason does not exclude a
user (src/bot.py:1344-1358 subtracts only `submitted_uids`). -/
theorem C2_prompt_set (st : BotState) (dstr : String) (uid : Nat) :
    Emission.prompt uid ∈ (ask_missed_reason st dstr).2 ↔
      ((∃ u ∈ st.db.users, u.id = uid) ∧
       ¬∃ s ∈ st.db.submissions, s.user_id = uid ∧ s.date = dstr) := by
  unfold ask_missed_reason
  simp only [List.mem_map, List.mem_filter, Emission.prompt.injEq, exists_exists_and_eq_and,
    decide_eq_true_eq, Bool.not_eq_true, Bool.not_eq_true', List.contains_eq_any_beq,
    List.any_eq_false, beq_iff_eq]
  constructor
  · rintro ⟨u, ⟨hu, hns⟩, rfl⟩
    refine ⟨hu, ?_⟩
    rintro ⟨s, hs, h1, h2⟩
    exact absurd h1.symm (hns s.user_id ⟨s, ⟨hs, h2⟩, rfl⟩)
  · rintro ⟨⟨w, hw, rfl⟩, hns⟩
    refine ⟨w.id, ⟨⟨w, hw, rfl⟩, ?_⟩, rfl⟩
    rintro a ⟨s, ⟨hs, hd⟩, rfl⟩ he
    exact hns ⟨s, hs, he.symm, hd⟩

def stC2 : BotState := ⟨⟨[⟨7, "", ""⟩], [], [(7, "2026-01-01", "болею")], []⟩, [], [], [], []⟩

/-- C2 counterexample: user 7 already has an AbsenceReason recorded for the
date and no submission; re-running the reconciliation job still prompts
user 7, contradicting the claim that such users are excluded. -/
theorem C2_counterexample :
    (7, "2026-01-01", "болею") ∈ stC2.db.miss_reasons ∧
    (stC2.db.submissions.filter (fun s => s.user_id = 7)) = [] ∧
    (ask_missed_reason stC2 "2026-01-01").2 = [Emission.prompt 7] := by
  refine ⟨by decide, by decide, ?_⟩
  decide

/-- C2 witness: a user with a submission dated that day is not prompted, a
user without one is. -/
theorem C2_witness :
    (Emission.prompt 7 ∈ (ask_missed_reason stC2 "2026-01-01").2) ↔
      ((∃ u ∈ stC2.db.users, u.id = 7) ∧
       ¬∃ s ∈ stC2.db.submissions, s.user_id = 7 ∧ s.date = "2026-01-01") :=
  C2_prompt_set stC2 "2026-01-01" 7

/-- C6 (amended): a photo carrying a media-group id from a user whose
pending flow is complete is routed to the Album Aggregator — the buffer for
`(user, burst-id)` records the item — and no Submission is emitted at that
moment; however the PendingIntake is NOT consumed: the pending map is left
unchanged (src/bot.py:842-856 never pops `pending`). -/
theorem C6_group_photo_not_consumed (today : String) (st : BotState)
    (u : UserRec) (g file_id caption : String) (msg_id : Nat) (now : Rat)
    (p : PendingIntake)
    (hp : alookup u.id st.pending = some p)
    (hsec : p.sect.isSome = true) (htop : p.topic.isSome = true) :
    (step today st (.photo u (some g) file_id caption msg_id now)).1.db = st.db ∧
    (step today st (.photo u (some g) file_id caption msg_id now)).2 = [] ∧
    (step today st (.photo u (some g) file_id caption msg_id now)).1.pending = st.pending ∧
    ∃ e, alookup (u.id, g)
        (step today st (.photo u (some g) file_id caption msg_id now)).1.media_groups = some e ∧
      e.file_ids ≠ [] ∧ file_id ∈ e.file_ids := by
  cases hmg : alookup (u.id, g) st.media_groups with
  | none =>
    simp only [step, handle_photo, hmg]
    exact ⟨trivial, trivial, trivial, _, alookup_aset_self _ _ _, by simp, by simp⟩
  | some entry =>
    simp only [step, handle_photo, hmg]
    exact ⟨trivial, trivial, trivial, _, alookup_aset_self _ _ _, by simp, by simp⟩

def pC6 : PendingIntake :=
  { type := "dz", sect := some "Основы Питона", topic := some ⟨"op1", "Вводный урок"⟩ }

def stC6 : BotState := ⟨⟨[⟨1, "", ""⟩], [], [], []⟩, [(1, pC6)], [], [], []⟩

/-- C6 counterexample: after a burst photo arrives from a user in the
awaiting-content state, the PendingIntake is still present — it was not
consumed, contradicting the claim that the state machine returns to Idle. -/
theorem C6_counterexample :
    alookup 1 ((step "2026-01-01" stC6 (.photo ⟨1, "", ""⟩ (some "g1") "f1" "" 5 0)).1.pending)
      = some pC6 ∧ some pC6 ≠ none := by
  refine ⟨?_, by decide⟩
  decide

/-- C6 witness: concrete instance of the amended statement. -/
theorem C6_witness :
    (step "2026-01-01" stC6 (.photo ⟨1, "", ""⟩ (some "g1") "f1" "" 5 0)).1.db = stC6.db ∧
    (step "2026-01-01" stC6 (.photo ⟨1, "", ""⟩ (some "g1") "f1" "" 5 0)).2 = [] ∧
    (step "2026-01-01" stC6 (.photo ⟨1, "", ""⟩ (some "g1") "f1" "" 5 0)).1.pending
      = stC6.pending ∧
    ∃ e, alookup (1, "g1")
        (step "2026-01-01" stC6 (.photo ⟨1, "", ""⟩ (some "g1") "f1" "" 5 0)).1.media_groups
        = some e ∧ e.file_ids ≠ [] ∧ "f1" ∈ e.file_ids :=
  C6_group_photo_not_consumed "2026-01-01" stC6 ⟨1, "", ""⟩ "g1" "f1" "" 5 0 pC6
    (by decide) (by decide) (by decide)

theorem insertById_perm (u : UserRec) (l : List UserRec) :
    (insertById u l).Perm (u :: l) := by
  induction l with
  | nil => simp [insertById]
  | cons v rest ih =>
    simp only [insertById]
    by_cases h : u.id ≤ v.id
    · simp [h]
    · simp only [h, if_false]
      exact (ih.cons v).trans (List.Perm.swap u v rest)

theorem sortById_perm (l : List UserRec) : (sortById l).Perm l := by
  induction l with
  | nil => simp [sortById]
  | cons u rest ih =>
    exact (insertById_perm u (sortById rest)).trans (ih.cons u)

/-- C9: the delete-user cascade removes every Submission, AbsenceReason,
the User record, and every stored content file of the target user, leaves
every other record untouched, and afterwards the daily report contains no
row for the target user (src/bot.py:1107-1123). -/
theorem C9_delete_cascade (db : DB) (uid : Nat) :
    (∀ u ∈ (delete_user_submissions db uid).users, u.id ≠ uid) ∧
    (∀ s ∈ (delete_user_submissions db uid).submissions, s.user_id ≠ uid) ∧
    (∀ r ∈ (delete_user_submissions db uid).miss_reasons, r.1 ≠ uid) ∧
    (∀ f ∈ (delete_user_submissions db uid).files, f.1 ≠ uid) ∧
    (∀ u, u ∈ (delete_user_submissions db uid).users ↔ u ∈ db.users ∧ u.id ≠ uid) ∧
    (∀ s, s ∈ (delete_user_submissions db uid).submissions ↔
        s ∈ db.submissions ∧ s.user_id ≠ uid) ∧
    (∀ r, r ∈ (delete_user_submissions db uid).miss_reasons ↔
        r ∈ db.miss_reasons ∧ r.1 ≠ uid) ∧
    (∀ f, f ∈ (delete_user_submissions db uid).files ↔ f ∈ db.files ∧ f.1 ≠ uid) ∧
    (∀ d r, r ∈ submissions_for_date (delete_user_submissions db uid) d →
        r.user_id ≠ uid) := by
  refine ⟨?_, ?_, ?_, ?_, ?_, ?_, ?_, ?_, ?_⟩
  · intro u hu; simp only [delete_user_submissions, List.mem_filter,
      decide_eq_true_eq] at hu; exact hu.2
  · intro s hs; simp only [delete_user_submissions, List.mem_filter,
      decide_eq_true_eq] at hs; exact hs.2
  · intro r hr; simp only [delete_user_submissions, List.mem_filter,
      decide_eq_true_eq] at hr; exact hr.2
  · intro f hf; simp only [delete_user_submissions, List.mem_filter,
      decide_eq_true_eq] at hf; exact hf.2
  · intro u; simp [delete_user_submissions, List.mem_filter]
  · intro s; simp [delete_user_submissions, List.mem_filter]
  · intro r; simp [delete_user_submissions, List.mem_filter]
  · intro f; simp [delete_user_submissions, List.mem_filter]
  · intro d r hr
    simp only [submissions_for_date, List.mem_map] at hr
    obtain ⟨w, hw, rfl⟩ := hr
    have hmem : w ∈ (delete_user_submissions db uid).users :=
      (sortById_perm _).mem_iff.mp hw
    simp only [delete_user_submissions, List.mem_filter, decide_eq_true_eq] at hmem
    exact hmem.2

def dbC9 : DB :=
  ⟨[⟨1, "a", ""⟩, ⟨2, "b", ""⟩],
   [⟨1, "dz", "s", "t", "tt", "text", "x", "", some 3, "2026-01-01", 0⟩,
    ⟨2, "conspect", "s", "t", "tt", "text", "y", "", some 4, "2026-01-01", 1⟩],
   [(1, "2026-01-02", "болел"), (2, "2026-01-02", "спал")],
   [(1, "f1"), (2, "f2")]⟩

/-- C9 witness: on a concrete two-user store, deleting user 1 keeps user 2
and drops every record of user 1. -/
theorem C9_witness :
    ((⟨2, "b", ""⟩ : UserRec) ∈ (delete_user_submissions dbC9 1).users ↔
      (⟨2, "b", ""⟩ : UserRec) ∈ dbC9.users ∧ (⟨2, "b", ""⟩ : UserRec).id ≠ 1) ∧
    (((1 : Nat), "2026-01-02", "болел") ∈ (delete_user_submissions dbC9 1).miss_reasons ↔
      ((1 : Nat), "2026-01-02", "болел") ∈ dbC9.miss_reasons ∧ (1 : Nat) ≠ 1) ∧
    (((1 : Nat), "f1") ∈ (delete_user_submissions dbC9 1).files ↔
      ((1 : Nat), "f1") ∈ dbC9.files ∧ (1 : Nat) ≠ 1) :=
  ⟨(C9_delete_cascade dbC9 1).2.2.2.2.1 ⟨2, "b", ""⟩,
   (C9_delete_cascade dbC9 1).2.2.2.2.2.2.1 (1, "2026-01-02", "болел"),
   (C9_delete_cascade dbC9 1).2.2.2.2.2.2.2.1 (1, "f1")⟩

/-- The texts that dedicated handlers catch before `handle_text`
(src/bot.py:653-703) together with the statistics label short-circuited at
src/bot.py:760; everything else is freeform text for `handle_text`. -/
def reservedText (raw : String) : Bool :=
  raw == "/start" || raw == "/menu" || raw == btnSendDz || raw == btnSendConspect ||
  raw == btnMyConspects || raw == btnMainMenu || raw == btnAdminPanel || raw == "📊 Статистика"

/-- C7: a freeform text from a user registered in the absence-interview
waiting-state is consumed as the reason before any other text handling:
the reason is upserted into `miss_reasons` for the waiting date, the
waiting-state is cleared, nothing else in the state changes — in particular
no Submission is created by the keyword fallback — and only the
confirmation is emitted (src/bot.py:766-776). -/
theorem C7_reason_interception (today : String) (st : BotState) (u : UserRec)
    (raw : String) (msg_id : Nat) (now : Rat) (d : String)
    (hw : alookup u.id st.reasons_pending = some d)
    (hfree : reservedText raw = false) :
    step today st (.text u raw msg_id now true) =
      ({ st with reasons_pending := aerase u.id st.reasons_pending,
                 db := upsert_reason st.db u.id d (pyStrip raw) },
       [.reasonSaved u.id d]) := by
  simp only [reservedText, Bool.or_eq_false_iff, beq_eq_false_iff_ne, ne_eq] at hfree
  obtain ⟨⟨⟨⟨⟨⟨⟨h1, h2⟩, h3⟩, h4⟩, h5⟩, h6⟩, h7⟩, h8⟩ := hfree
  have hm : menuButtonTexts.contains raw = false := by
    simp [menuButtonTexts, List.contains_eq_any_beq, h3, h4, h5, h6]
  simp only [step, dispatch_text, handle_text_core, handle_text_rest, h1, h2, h3, h4, h5, h6, h7, h8, hm, hw,
    if_false, or_self, Bool.false_eq_true, ite_false]
  simp [h8]

def stC7 : BotState := ⟨⟨[⟨1, "", ""⟩], [], [], []⟩, [], [], [(1, "2026-01-01")], []⟩

/-- C7 witness: the text even starts with the homework keyword, yet it is
stored as the absence reason and no Submission appears. -/
theorem C7_witness :
    step "2026-01-02" stC7 (.text ⟨1, "", ""⟩ "дз не успел" 9 0 true) =
      ({ stC7 with reasons_pending := aerase 1 stC7.reasons_pending,
                   db := upsert_reason stC7.db 1 "2026-01-01" (pyStrip "дз не успел") },
       [.reasonSaved 1 "2026-01-01"]) :=
  C7_reason_interception "2026-01-02" stC7 ⟨1, "", ""⟩ "дз не успел" 9 0 "2026-01-01"
    (by decide) (by decide)

/-- C10: when the store write of the absence reason fails, the
waiting-state has already been popped and stays cleared, the store is left
without the reason, and the user still receives the saved-confirmation —
the reason is silently lost and that user is not intercepted again
(src/bot.py:766-776: the pop precedes the INSERT, whose failure is
swallowed, and the confirmation is sent unconditionally). -/
theorem C10_reason_write_failure (today : String) (st : BotState) (u : UserRec)
    (raw : String) (msg_id : Nat) (now : Rat) (d : String)
    (hw : alookup u.id st.reasons_pending = some d)
    (hfree : reservedText raw = false) :
    step today st (.text u raw msg_id now false) =
      ({ st with reasons_pending := aerase u.id st.reasons_pending },
       [.reasonSaved u.id d]) ∧
    alookup u.id (step today st (.text u raw msg_id now false)).1.reasons_pending = none ∧
    (step today st (.text u raw msg_id now false)).1.db = st.db := by
  simp only [reservedText, Bool.or_eq_false_iff, beq_eq_false_iff_ne, ne_eq] at hfree
  obtain ⟨⟨⟨⟨⟨⟨⟨h1, h2⟩, h3⟩, h4⟩, h5⟩, h6⟩, h7⟩, h8⟩ := hfree
  have hm : menuButtonTexts.contains raw = false := by
    simp [menuButtonTexts, List.contains_eq_any_beq, h3, h4, h5, h6]
  have hstep : step today st (.text u raw msg_id now false) =
      ({ st with reasons_pending := aerase u.id st.reasons_pending },
       [.reasonSaved u.id d]) := by
    simp only [step, dispatch_text, handle_text_core, handle_text_rest, h1, h2, h3, h4, h5, h6, h7, h8, hm, hw,
      if_false, or_self, Bool.false_eq_true, ite_false]
  refine ⟨hstep, ?_, ?_⟩
  · rw [hstep]; exact alookup_aerase_self u.id st.reasons_pending
  · rw [hstep]

def stC10 : BotState := ⟨⟨[⟨1, "", ""⟩], [], [], []⟩, [], [], [(1, "2026-01-01")], []⟩

/-- C10 witness: concrete failing write. -/
theorem C10_witness :
    step "2026-01-02" stC10 (.text ⟨1, "", ""⟩ "болел" 9 0 false) =
      ({ stC10 with reasons_pending := aerase 1 stC10.reasons_pending },
       [.reasonSaved 1 "2026-01-01"]) ∧
    alookup 1 (step "2026-01-02" stC10 (.text ⟨1, "", ""⟩ "болел" 9 0 false)).1.reasons_pending
      = none ∧
    (step "2026-01-02" stC10 (.text ⟨1, "", ""⟩ "болел" 9 0 false)).1.db = stC10.db :=
  C10_reason_write_failure "2026-01-02" stC10 ⟨1, "", ""⟩ "болел" 9 0 "2026-01-01"
    (by decide) (by decide)

theorem ite_one_eq_one (b : Bool) : ((if b = true then (1 : Nat) else 0) = 1) ↔ b = true := by
  cases b <;> simp

/-- C8: the daily summary has exactly one row per known user (its user-id
column is a permutation of the users table, so users with no submission and
no reason still get a row), the dz flag is set iff the user has a
homework submission dated that day, the conspect flag iff a notes
submission, and the reason column carries the recorded AbsenceReason
(src/bot.py:449-488). -/
theorem C8_report_rows (db : DB) (dstr : String) :
    ((submissions_for_date db dstr).map (fun r => r.user_id)).Perm
        (db.users.map (fun u => u.id)) ∧
    ∀ r ∈ submissions_for_date db dstr,
      (r.dz_submitted = 1 ↔ ∃ s ∈ db.submissions,
          s.user_id = r.user_id ∧ s.date = dstr ∧ s.type = "dz") ∧
      (r.conspect_submitted = 1 ↔ ∃ s ∈ db.submissions,
          s.user_id = r.user_id ∧ s.date = dstr ∧ s.type = "conspect") ∧
      r.miss_reason = (reasonFor db r.user_id dstr).getD "" ∧
      r.date = dstr := by
  constructor
  · unfold submissions_for_date
    rw [List.map_map]
    exact (sortById_perm db.users).map (fun u => u.id)
  · intro r hr
    simp only [submissions_for_date, List.mem_map] at hr
    obtain ⟨u, hu, rfl⟩ := hr
    dsimp only
    refine ⟨?_, ?_, rfl, rfl⟩
    · refine (ite_one_eq_one _).trans ?_
      rw [List.elem_iff]
      simp only [List.mem_map, List.mem_filter, decide_eq_true_eq]
      tauto
    · refine (ite_one_eq_one _).trans ?_
      rw [List.elem_iff]
      simp only [List.mem_map, List.mem_filter, decide_eq_true_eq]
      tauto

def dbC8 : DB :=
  ⟨[⟨1, "U1", ""⟩, ⟨2, "U2", ""⟩, ⟨3, "U3", ""⟩],
   [⟨1, "dz", "s", "t", "tt", "text", "x", "", some 3, "2026-01-05", 0⟩],
   [(2, "2026-01-05", "sick")], []⟩

/-- C8 witness: the three-user scenario of the specification — U1 submitted
homework, U2 only gave a reason, U3 did nothing — has one row per user. -/
theorem C8_witness :
    ((submissions_for_date dbC8 "2026-01-05").map (fun r => r.user_id)).Perm
        (dbC8.users.map (fun u => u.id)) :=
  (C8_report_rows dbC8 "2026-01-05").1

theorem text_fallback_bound (today : String) (st : BotState) (u : UserRec)
    (text : String) (msg_id : Nat) (now : Rat) :
    ∀ em ∈ (text_fallback today st u text msg_id now).2, ∀ br s,
      em = .submissionMade br s → pyLen s.content_summary ≤ 300 := by
  intro em hem br s heq
  subst heq
  simp only [text_fallback] at hem
  split at hem
  · simp only [List.mem_singleton, Emission.submissionMade.injEq] at hem
    obtain ⟨-, rfl⟩ := hem
    exact pyLen_summarize300 _
  · simp at hem

theorem photo_fallback_bound (today : String) (st : BotState) (u : UserRec)
    (file_id caption : String) (msg_id : Nat) (now : Rat) :
    ∀ em ∈ (photo_fallback today st u file_id caption msg_id now).2, ∀ br s,
      em = .submissionMade br s → pyLen s.content_summary ≤ 300 := by
  intro em hem br s heq
  subst heq
  simp only [photo_fallback] at hem
  split at hem
  · simp only [List.mem_singleton, Emission.submissionMade.injEq] at hem
    obtain ⟨-, rfl⟩ := hem
    exact pyLen_photoSummaryKw _
  · simp at hem

theorem handle_text_rest_bound (today : String) (st : BotState) (u : UserRec)
    (text : String) (msg_id : Nat) (now : Rat) (ok : Bool) :
    ∀ em ∈ (handle_text_rest today st u text msg_id now ok).2, ∀ br s,
      em = .submissionMade br s → pyLen s.content_summary ≤ 300 := by
  intro em hem br s heq
  subst heq
  simp only [handle_text_rest] at hem
  split at hem
  · simp at hem
  · split at hem
    · simp at hem
    · split at hem
      · split at hem
        · simp only [List.mem_singleton, Emission.submissionMade.injEq] at hem
          obtain ⟨-, rfl⟩ := hem
          exact pyLen_summarize300 _
        · exact text_fallback_bound _ _ _ _ _ _ _ hem _ _ rfl
      · exact text_fallback_bound _ _ _ _ _ _ _ hem _ _ rfl

theorem handle_text_core_bound (today : String) (st : BotState) (u : UserRec)
    (raw : String) (msg_id : Nat) (now : Rat) (ok : Bool) :
    ∀ em ∈ (handle_text_core today st u raw msg_id now ok).2, ∀ br s,
      em = .submissionMade br s → pyLen s.content_summary ≤ 300 := by
  intro em hem br s heq
  simp only [handle_text_core] at hem
  split at hem
  · subst heq; simp at hem
  · exact handle_text_rest_bound _ _ _ _ _ _ _ _ hem _ _ heq

theorem handle_photo_bound (today : String) (st : BotState) (u : UserRec)
    (mgid : Option String) (file_id caption : String) (msg_id : Nat) (now : Rat) :
    ∀ em ∈ (handle_photo today st u mgid file_id caption msg_id now).2, ∀ br s,
      em = .submissionMade br s → pyLen s.content_summary ≤ 300 := by
  intro em hem br s heq
  subst heq
  simp only [handle_photo] at hem
  split at hem
  · split at hem <;> simp at hem
  · split at hem
    · split at hem
      · simp only [List.mem_singleton, Emission.submissionMade.injEq] at hem
        obtain ⟨-, rfl⟩ := hem
        exact pyLen_photoSummary _
      · exact photo_fallback_bound _ _ _ _ _ _ _ _ hem _ _ rfl
    · exact photo_fallback_bound _ _ _ _ _ _ _ _ hem _ _ rfl

/-- Events coming directly from a user message, i.e. the text-intake,
single-photo, keyword-fallback and album-buffering paths, as opposed to
button callbacks and the sweep. -/
def isMessageEvent : Event → Prop
  | .text _ _ _ _ _ => True
  | .photo _ _ _ _ _ _ => True
  | _ => False

/-- C5 (amended): every Submission emitted while handling a text or photo
message — text intake, single-photo intake, and both keyword fallbacks —
has a content summary of at most 300 characters.  Album finalization is
excluded: it copies the buffered caption unmodified (src/bot.py:938). -/
theorem C5_message_summary_bound (today : String) (st : BotState) (ev : Event)
    (h : isMessageEvent ev) :
    ∀ em ∈ (step today st ev).2, ∀ br s,
      em = .submissionMade br s → pyLen s.content_summary ≤ 300 := by
  cases ev with
  | text u raw msg_id now ok =>
    intro em hem br s heq
    simp only [step, dispatch_text] at hem
    split at hem
    · subst heq; simp at hem
    · split at hem
      · subst heq; simp at hem
      · split at hem
        · subst heq; simp at hem
        · split at hem
          · subst heq; simp at hem
          · exact handle_text_core_bound _ _ _ _ _ _ _ _ hem _ _ heq
  | photo u mgid fid cap msg_id now =>
    intro em hem br s heq
    exact handle_photo_bound _ _ _ _ _ _ _ _ _ hem _ _ heq
  | chooseSection u sec => exact absurd h (by simp [isMessageEvent])
  | chooseTopic u sec tid => exact absurd h (by simp [isMessageEvent])
  | cancel u => exact absurd h (by simp [isMessageEvent])
  | sweep now => exact absurd h (by simp [isMessageEvent])

def stC5w : BotState := ⟨⟨[], [], [], []⟩, [], [], [], []⟩

def evC5w : Event := .text ⟨1, "", ""⟩ "дз длинный текст" 4 0 true

def subC5w : Submission :=
  { user_id := 1, type := "dz", sect := "Без раздела", topic_id := "none",
    topic_title := pySlice 50 (firstLine (pyStrip "дз длинный текст")),
    content_type := "text", content_summary := summarize300 (pyStrip "дз длинный текст"),
    photo_file_id := "", message_id := some 4, date := "2026-01-01", ts := 0 }

/-- C5 witness: the concrete submission produced by a keyword-fallback text
is summarized within the bound. -/
theorem C5_witness : pyLen subC5w.content_summary ≤ 300 :=
  C5_message_summary_bound "2026-01-01" stC5w evC5w trivial
    (Emission.submissionMade Branch.fallbackText subC5w)
    (by rw [show (step "2026-01-01" stC5w evC5w).2 =
          [Emission.submissionMade Branch.fallbackText subC5w] from rfl]
        exact List.mem_singleton.mpr rfl)
    Branch.fallbackText subC5w rfl


/-- A 301-character caption. -/
def capC5 : String := "aaaaaaaaaaaaaaaaaaaaaaaaaaaaaaaaaaaaaaaaaaaaaaaaaaaaaaaaaaaaaaaaaaaaaaaaaaaaaaaaaaaaaaaaaaaaaaaaaaaaaaaaaaaaaaaaaaaaaaaaaaaaaaaaaaaaaaaaaaaaaaaaaaaaaaaaaaaaaaaaaaaaaaaaaaaaaaaaaaaaaaaaaaaaaaaaaaaaaaaaaaaaaaaaaaaaaaaaaaaaaaaaaaaaaaaaaaaaaaaaaaaaaaaaaaaaaaaaaaaaaaaaaaaaaaaaaaaaaaaaaaaaaaaaaaaaaaaaaaaaa"

def stC5 : BotState := ⟨⟨[⟨1, "", ""⟩], [], [], []⟩, [], [], [], []⟩

set_option maxRecDepth 8000 in
/-- C5 counterexample: an album whose caption has 301 characters is
finalized with that caption as its content_summary, so the stored summary
exceeds 300 characters. -/
theorem C5_counterexample :
    (run "2026-01-01" stC5
        [.photo ⟨1, "", ""⟩ (some "g1") "f1" capC5 2 0, .sweep 2]).1.db.submissions =
      [{ user_id := 1, type := "dz", sect := "Без раздела", topic_id := "none",
         topic_title := "Альбом", content_type := "photo_album", content_summary := capC5,
         photo_file_id := "f1", message_id := none, date := "2026-01-01", ts := 2 }] ∧
    300 < pyLen capC5 := by
  constructor
  · simp [run, step, handle_photo, process_media_groups, sweep_fold, stC5, capC5, aset, alookup, aerase,
      finalize_group, mk_album_sub, add_submission, ensure_user, snapType, snapSection,
      snapTopic, show (1.5 : Rat) < 2 by norm_num,
      show String.intercalate ";" ["f1"] = "f1" from rfl]
  · decide

/-! ### C3: flow exclusivity and staleness -/

theorem alookup_aerase_none {α β : Type} [DecidableEq α] (k k' : α)
    (l : List (α × β)) (h : alookup k' l = none) :
    alookup k' (aerase k l) = none := by
  by_cases hk : k = k'
  · subst hk; exact alookup_aerase_self k l
  · rw [alookup_aerase_ne l hk]; exact h

theorem alookup_aset_none {α β : Type} [DecidableEq α] (k k' : α) (v : β)
    (l : List (α × β)) (h : alookup k' l = none) (hne : k ≠ k') :
    alookup k' (aset k v l) = none := by
  rw [alookup_aset_ne v l hne]; exact h

/-- A flow-start event by the given user: pressing one of the two
submit buttons (src/bot.py:661-670). -/
def isFlowStartBy (uid : Nat) : Event → Bool
  | .text u raw _ _ _ => u.id == uid && (raw == btnSendDz || raw == btnSendConspect)
  | _ => false

/-- An emission that submits through the live PendingIntake of the given
user (text-intake or single-photo intake path). -/
def pendingEmissionFor (uid : Nat) : Emission → Bool
  | .submissionMade br s =>
      (br == Branch.pendingText || br == Branch.pendingPhoto) && s.user_id == uid
  | _ => false

theorem sweep_fold_pending (today : String) (now : Rat)
    (acc : BotState × List Emission) (key : Nat × String) :
    (sweep_fold today now acc key).1.pending = acc.1.pending := by
  unfold sweep_fold
  split
  · rfl
  · split
    · rfl
    · rfl

theorem sweep_fold_album (today : String) (now : Rat)
    (acc : BotState × List Emission) (key : Nat × String)
    (hacc : ∀ em ∈ acc.2, ∃ s, em = Emission.submissionMade Branch.album s) :
    ∀ em ∈ (sweep_fold today now acc key).2,
      ∃ s, em = Emission.submissionMade Branch.album s := by
  unfold sweep_fold
  split
  · exact hacc
  · split
    · intro em hem
      rw [List.mem_append] at hem
      rcases hem with h | h
      · exact hacc em h
      · rw [List.mem_singleton] at h
        exact ⟨_, h⟩
    · exact hacc

theorem foldl_sweep_pending (today : String) (now : Rat) :
    ∀ (keys : List (Nat × String)) (acc : BotState × List Emission),
      (keys.foldl (sweep_fold today now) acc).1.pending = acc.1.pending := by
  intro keys
  induction keys with
  | nil => intro acc; rfl
  | cons k ks ih =>
    intro acc
    rw [List.foldl_cons, ih, sweep_fold_pending]

theorem foldl_sweep_album (today : String) (now : Rat) :
    ∀ (keys : List (Nat × String)) (acc : BotState × List Emission),
      (∀ em ∈ acc.2, ∃ s, em = Emission.submissionMade Branch.album s) →
      ∀ em ∈ (keys.foldl (sweep_fold today now) acc).2,
        ∃ s, em = Emission.submissionMade Branch.album s := by
  intro keys
  induction keys with
  | nil => intro acc hacc; exact hacc
  | cons k ks ih =>
    intro acc hacc
    rw [List.foldl_cons]
    exact ih _ (sweep_fold_album today now acc k hacc)

theorem process_media_groups_pending (today : String) (st : BotState) (now : Rat) :
    (process_media_groups today st now).1.pending = st.pending :=
  foldl_sweep_pending today now _ _

theorem process_media_groups_album (today : String) (st : BotState) (now : Rat) :
    ∀ em ∈ (process_media_groups today st now).2,
      ∃ s, em = Emission.submissionMade Branch.album s :=
  foldl_sweep_album today now _ _ (by intro em hem; simp at hem)

theorem text_fallback_no_pending (today : String) (st : BotState) (u : UserRec)
    (text : String) (msg_id : Nat) (now : Rat) (uid : Nat) :
    (text_fallback today st u text msg_id now).1.pending = st.pending ∧
    ∀ em ∈ (text_fallback today st u text msg_id now).2,
      pendingEmissionFor uid em = false := by
  by_cases h : pyStarts "дз" (pyLower text) = true ∨ pyStarts "конспект" (pyLower text) = true
  · simp only [text_fallback, h, if_true]
    refine ⟨trivial, ?_⟩
    intro em hem
    rw [List.mem_singleton] at hem
    subst hem
    simp [pendingEmissionFor]
  · simp only [text_fallback, h, if_false]
    exact ⟨trivial, by intro em hem; simp at hem⟩

theorem photo_fallback_no_pending (today : String) (st : BotState) (u : UserRec)
    (file_id caption : String) (msg_id : Nat) (now : Rat) (uid : Nat) :
    (photo_fallback today st u file_id caption msg_id now).1.pending = st.pending ∧
    ∀ em ∈ (photo_fallback today st u file_id caption msg_id now).2,
      pendingEmissionFor uid em = false := by
  by_cases h : pyStarts "дз" (pyLower caption) = true ∨ pyStarts "конспект" (pyLower caption) = true
  · simp only [photo_fallback, h, if_true]
    refine ⟨trivial, ?_⟩
    intro em hem
    rw [List.mem_singleton] at hem
    subst hem
    simp [pendingEmissionFor]
  · simp only [photo_fallback, h, if_false]
    exact ⟨trivial, by intro em hem; simp at hem⟩

theorem handle_text_rest_no_pending (today : String) (st : BotState) (u : UserRec)
    (text : String) (msg_id : Nat) (now : Rat) (ok : Bool) (uid : Nat)
    (hnone : alookup uid st.pending = none) :
    alookup uid (handle_text_rest today st u text msg_id now ok).1.pending = none ∧
    ∀ em ∈ (handle_text_rest today st u text msg_id now ok).2,
      pendingEmissionFor uid em = false := by
  unfold handle_text_rest
  split
  · constructor
    · split <;> exact hnone
    · intro em hem
      rw [List.mem_singleton] at hem
      subst hem
      simp [pendingEmissionFor]
  · split
    · exact ⟨hnone, by intro em hem; simp at hem⟩
    · split
      case _ p hp =>
        split
        case _ sec top hsec htop =>
          have hne : u.id ≠ uid := by
            intro he
            rw [he, hnone] at hp
            exact Option.noConfusion hp
          constructor
          · exact alookup_aerase_none u.id uid st.pending hnone
          · intro em hem
            rw [List.mem_singleton] at hem
            subst hem
            simp [pendingEmissionFor, hne]
        case _ hfb =>
          exact ⟨by rw [(text_fallback_no_pending today st u text msg_id now uid).1]; exact hnone,
                 (text_fallback_no_pending today st u text msg_id now uid).2⟩
      case _ hp =>
        exact ⟨by rw [(text_fallback_no_pending today st u text msg_id now uid).1]; exact hnone,
               (text_fallback_no_pending today st u text msg_id now uid).2⟩

theorem handle_text_core_no_pending (today : String) (st : BotState) (u : UserRec)
    (raw : String) (msg_id : Nat) (now : Rat) (ok : Bool) (uid : Nat)
    (hnone : alookup uid st.pending = none) :
    alookup uid (handle_text_core today st u raw msg_id now ok).1.pending = none ∧
    ∀ em ∈ (handle_text_core today st u raw msg_id now ok).2,
      pendingEmissionFor uid em = false := by
  unfold handle_text_core
  split
  · exact ⟨hnone, by intro em hem; simp at hem⟩
  · split
    · exact handle_text_rest_no_pending today _ u (pyStrip raw) msg_id now ok uid
        (alookup_aerase_none u.id uid st.pending hnone)
    · exact handle_text_rest_no_pending today st u (pyStrip raw) msg_id now ok uid hnone

theorem handle_photo_no_pending (today : String) (st : BotState) (u : UserRec)
    (mgid : Option String) (file_id caption : String) (msg_id : Nat) (now : Rat) (uid : Nat)
    (hnone : alookup uid st.pending = none) :
    alookup uid (handle_photo today st u mgid file_id caption msg_id now).1.pending = none ∧
    ∀ em ∈ (handle_photo today st u mgid file_id caption msg_id now).2,
      pendingEmissionFor uid em = false := by
  unfold handle_photo
  split
  case _ g =>
    cases halo : alookup (u.id, g) st.media_groups with
    | none =>
      simp only [halo]
      exact ⟨hnone, by intro em hem; simp at hem⟩
    | some entry =>
      simp only [halo]
      exact ⟨hnone, by intro em hem; simp at hem⟩
  · split
    case _ p hp =>
      split
      case _ sec top hsec htop =>
        have hne : u.id ≠ uid := by
          intro he
          rw [he, hnone] at hp
          exact Option.noConfusion hp
        constructor
        · exact alookup_aerase_none u.id uid st.pending hnone
        · intro em hem
          rw [List.mem_singleton] at hem
          subst hem
          simp [pendingEmissionFor, hne]
      case _ hfb =>
        exact ⟨by rw [(photo_fallback_no_pending today st u file_id caption msg_id now uid).1];
                  exact hnone,
               (photo_fallback_no_pending today st u file_id caption msg_id now uid).2⟩
    case _ hp =>
      exact ⟨by rw [(photo_fallback_no_pending today st u file_id caption msg_id now uid).1];
                exact hnone,
             (photo_fallback_no_pending today st u file_id caption msg_id now uid).2⟩

/-- If a user has no PendingIntake and the event is not a flow start by
that user, then after the event the user still has no PendingIntake and no
submission was emitted through that user's PendingIntake. -/
theorem step_no_pending (today : String) (uid : Nat) (st : BotState) (ev : Event)
    (hnone : alookup uid st.pending = none)
    (hnf : isFlowStartBy uid ev = false) :
    alookup uid (step today st ev).1.pending = none ∧
    ∀ em ∈ (step today st ev).2, pendingEmissionFor uid em = false := by
  cases ev with
  | text u raw msg_id now ok =>
    simp only [isFlowStartBy, Bool.and_eq_false_iff, Bool.or_eq_false_iff,
      beq_eq_false_iff_ne, ne_eq] at hnf
    simp only [step, dispatch_text]
    split
    · exact ⟨hnone, by intro em hem; simp at hem⟩
    · split
      case _ hdz =>
        rcases hnf with hne | ⟨hd, hc⟩
        · exact ⟨alookup_aset_none u.id uid _ st.pending hnone hne,
                 by intro em hem; simp at hem⟩
        · exact absurd hdz hd
      · split
        case _ hcons =>
          rcases hnf with hne | ⟨hd, hc⟩
          · exact ⟨alookup_aset_none u.id uid _ st.pending hnone hne,
                   by intro em hem; simp at hem⟩
          · exact absurd hcons hc
        · split
          · exact ⟨hnone, by intro em hem; simp at hem⟩
          · exact handle_text_core_no_pending today st u raw msg_id now ok uid hnone
  | photo u mgid fid cap msg_id now =>
    exact handle_photo_no_pending today st u mgid fid cap msg_id now uid hnone
  | chooseSection u sec =>
    simp only [step, cb_section_choose]
    split
    · exact ⟨hnone, by intro em hem; simp at hem⟩
    case _ p hp =>
      have hne : u.id ≠ uid := by
        intro he
        rw [he, hnone] at hp
        exact Option.noConfusion hp
      exact ⟨alookup_aset_none u.id uid _ st.pending hnone hne,
             by intro em hem; simp at hem⟩
  | chooseTopic u sec tid =>
    simp only [step, cb_topic_choose]
    split
    · exact ⟨hnone, by intro em hem; simp at hem⟩
    case _ p hp =>
      have hne : u.id ≠ uid := by
        intro he
        rw [he, hnone] at hp
        exact Option.noConfusion hp
      split
      · exact ⟨hnone, by intro em hem; simp at hem⟩
      · split
        · exact ⟨hnone, by intro em hem; simp at hem⟩
        · split
          · exact ⟨hnone, by intro em hem; simp at hem⟩
          · exact ⟨alookup_aset_none u.id uid _ st.pending hnone hne,
                   by intro em hem; simp at hem⟩
  | cancel u =>
    exact ⟨alookup_aerase_none u.id uid st.pending hnone,
           by intro em hem; simp [step, cb_cancel] at hem⟩
  | sweep now =>
    constructor
    · rw [show (step today st (Event.sweep now)).1.pending = st.pending from
        process_media_groups_pending today st now]
      exact hnone
    · intro em hem
      obtain ⟨s, rfl⟩ := process_media_groups_album today st now em hem
      simp [pendingEmissionFor]

theorem run_no_pending (today : String) (uid : Nat) :
    ∀ (tr : List Event) (st : BotState),
      alookup uid st.pending = none →
      (∀ e ∈ tr, isFlowStartBy uid e = false) →
      alookup uid (run today st tr).1.pending = none ∧
      ∀ em ∈ (run today st tr).2, pendingEmissionFor uid em = false := by
  intro tr
  induction tr with
  | nil =>
    intro st h _
    exact ⟨h, by intro em hem; simp [run] at hem⟩
  | cons e es ih =>
    intro st h hnf
    have hs := step_no_pending today uid st e h (hnf e (by simp))
    have hr := ih (step today st e).1 hs.1 (fun e' he' => hnf e' (by simp [he']))
    constructor
    · simpa [run] using hr.1
    · intro em hem
      simp only [run, List.mem_append] at hem
      rcases hem with hm | hm
      · exact hs.2 em hm
      · exact hr.2 em hm

/-- C3 (amended): (a) starting a new intake flow installs a fresh
PendingIntake for the user, discarding any previous one; (b) after a cancel
event by a user, as long as that user starts no new flow, no Submission is
emitted through the text-intake or single-photo intake path for that user.
The Album Aggregator is excluded: its burst-start snapshot survives a
cancel (see the counterexample), and menu navigation does not discard the
PendingIntake (`cmd_main_menu`, src/bot.py:692-695, leaves it in place). -/
theorem C3_flow_exclusivity :
    (∀ (today : String) (st : BotState) (u : UserRec) (msg_id : Nat) (now : Rat) (ok : Bool),
       alookup u.id ((dispatch_text today st u btnSendDz msg_id now ok).1.pending) =
         some { type := "dz", sect := none, topic := none, ts := now } ∧
       alookup u.id ((dispatch_text today st u btnSendConspect msg_id now ok).1.pending) =
         some { type := "conspect", sect := none, topic := none, ts := now }) ∧
    (∀ (today : String) (st0 : BotState) (tr1 tr2 : List Event) (u : UserRec),
       (∀ e ∈ tr2, isFlowStartBy u.id e = false) →
       ∀ em ∈ (run today (run today st0 (tr1 ++ [Event.cancel u])).1 tr2).2,
         pendingEmissionFor u.id em = false) := by
  constructor
  · intro today st u msg_id now ok
    constructor
    · simp only [dispatch_text,
        if_neg (show ¬(btnSendDz = "/start" ∨ btnSendDz = "/menu") by decide), if_pos rfl]
      exact alookup_aset_self u.id _ st.pending
    · simp only [dispatch_text,
        if_neg (show ¬(btnSendConspect = "/start" ∨ btnSendConspect = "/menu") by decide),
        if_neg (show ¬(btnSendConspect = btnSendDz) by decide), if_pos rfl]
      exact alookup_aset_self u.id _ st.pending
  · intro today st0 tr1 tr2 u hnf em hem
    have hc : alookup u.id (run today st0 (tr1 ++ [Event.cancel u])).1.pending = none := by
      rw [run_append]
      simp only [run, step, cb_cancel]
      exact alookup_aerase_self u.id _
    exact (run_no_pending today u.id tr2 _ hc hnf).2 em hem

def uC3 : UserRec := ⟨1, "", ""⟩

def stInitC3 : BotState := ⟨⟨[], [], [], []⟩, [], [], [], []⟩

def trC3pre : List Event :=
  [.text uC3 btnSendDz 1 0 true, .chooseSection uC3 "Основы Питона",
   .chooseTopic uC3 "Основы Питона" "op1", .photo uC3 (some "g1") "f1" "мой альбом" 2 0]

/-- C3 counterexample: user 1 runs a full homework flow, sends a burst
photo (snapshotting the PendingIntake), then cancels.  The sweep after the
cancel — a trace segment containing no flow start by user 1 — still emits a
Submission whose kind, section and topic come from the PendingIntake
snapshot that predates the cancel, so the claim as stated is false. -/
theorem C3_counterexample :
    (∀ e ∈ ([Event.sweep 2] : List Event), isFlowStartBy 1 e = false) ∧
    (run "2026-01-01" (run "2026-01-01" stInitC3 (trC3pre ++ [Event.cancel uC3])).1
        [Event.sweep 2]).2 =
      [Emission.submissionMade Branch.album
        { user_id := 1, type := "dz", sect := "Основы Питона", topic_id := "op1",
          topic_title := "Вводный урок", content_type := "photo_album",
          content_summary := "мой альбом", photo_file_id := "f1",
          message_id := none, date := "2026-01-01", ts := 2 }] := by
  constructor
  · decide
  · simp [run, step, dispatch_text, handle_photo, cb_section_choose, cb_topic_choose,
      cb_cancel, process_media_groups, sweep_fold, finalize_group, mk_album_sub,
      add_submission, ensure_user, snapType, snapSection, snapTopic, sectionTopics,
      SECTIONS, osnovyTopics, aset, aerase, alookup, trC3pre, uC3, stInitC3,
      show (1.5 : Rat) < 2 by norm_num,
      show String.intercalate ";" ["f1"] = "f1" from rfl]

def subC3w : Submission :=
  { user_id := 1, type := "dz", sect := "Без раздела", topic_id := "none",
    topic_title := pySlice 50 (firstLine (pyStrip "дз привет")),
    content_type := "text", content_summary := summarize300 (pyStrip "дз привет"),
    photo_file_id := "", message_id := some 3, date := "2026-01-01", ts := 1 }

/-- C3 witness: the keyword text sent after a cancel produces only a
fallback submission, never one through the pending path. -/
theorem C3_witness :
    pendingEmissionFor 1 (Emission.submissionMade Branch.fallbackText subC3w) = false :=
  C3_flow_exclusivity.2 "2026-01-01" stInitC3 []
    [Event.text ⟨1, "", ""⟩ "дз привет" 3 1 true] ⟨1, "", ""⟩ (by decide)
    (Emission.submissionMade Branch.fallbackText subC3w)
    (by rw [show (run "2026-01-01"
          (run "2026-01-01" stInitC3 ([] ++ [Event.cancel ⟨1, "", ""⟩])).1
          [Event.text ⟨1, "", ""⟩ "дз привет" 3 1 true]).2 =
          [Emission.submissionMade Branch.fallbackText subC3w] from rfl]
        exact List.mem_singleton.mpr rfl)

/-! C1 machinery -/

theorem ensure_user_submissions (db : DB) (u : UserRec) :
    (ensure_user db u).submissions = db.submissions := by
  unfold ensure_user
  split <;> rfl

theorem aset_singleton_same {α β : Type} [DecidableEq α] (key : α) (v e : β) :
    aset key v [(key, e)] = [(key, v)] := by
  simp [aset]

theorem process_singleton_fresh (today : String) (now : Rat) (st : BotState)
    (key : Nat × String) (e : MediaGroupEntry)
    (hm : st.media_groups = [(key, e)])
    (hq : ¬(now - e.last_update > 1.5)) :
    process_media_groups today st now = (st, []) := by
  unfold process_media_groups
  rw [hm]
  simp [sweep_fold, hm, alookup, hq]

theorem process_singleton_final (today : String) (now : Rat) (st : BotState)
    (key : Nat × String) (e : MediaGroupEntry)
    (hm : st.media_groups = [(key, e)])
    (hq : now - e.last_update > 1.5) :
    process_media_groups today st now =
      ((finalize_group today now st key e).1, [(finalize_group today now st key e).2]) := by
  unfold process_media_groups
  rw [hm]
  simp [sweep_fold, hm, alookup, hq]

theorem run_sweeps_empty (today : String) :
    ∀ (ts : List Rat) (st : BotState), st.media_groups = [] →
      run today st (ts.map Event.sweep) = (st, []) := by
  intro ts
  induction ts with
  | nil => intro st h; rfl
  | cons t ts ih =>
    intro st h
    have hstep : step today st (Event.sweep t) = (st, []) := by
      simp [step, process_media_groups, h]
    simp [run, hstep, ih st h]

/-- One item of a burst: content reference, caption, arrival time. -/
structure BurstItem where
  fid : String
  cap : String
  t : Rat
deriving DecidableEq, Repr

/-- The photo event delivering one burst item. -/
def burstPhoto (u : UserRec) (g : String) (x : BurstItem) : Event :=
  .photo u (some g) x.fid x.cap 0 x.t

/-- Arrival time of the last item, defaulting to `t`. -/
def lastT (t : Rat) : List BurstItem → Rat
  | [] => t
  | x :: xs => lastT x.t xs

/-- The remainder of a burst after its first item, interleaved with sweep
ticks.  `t` is the arrival time of the most recent item; each later item
arrives within the quiet interval (1.5) of the previous one, and every
sweep fires within the quiet interval of the latest item, which is exactly
the regime in which the buffer must not be finalized early. -/
inductive BurstMid (u : UserRec) (g : String) : Rat → List BurstItem → List Event → Prop
  | done (t : Rat) : BurstMid u g t [] []
  | sweep (t s : Rat) (xs : List BurstItem) (tr : List Event) (hs : s ≤ t + 1.5)
      (h : BurstMid u g t xs tr) : BurstMid u g t xs (Event.sweep s :: tr)
  | item (t : Rat) (x : BurstItem) (xs : List BurstItem) (tr : List Event)
      (hx : x.t ≤ t + 1.5) (h : BurstMid u g x.t xs tr) :
      BurstMid u g t (x :: xs) (burstPhoto u g x :: tr)

theorem burstMid_run (today : String) (u : UserRec) (g : String)
    {t : Rat} {xs : List BurstItem} {tr : List Event}
    (hb : BurstMid u g t xs tr) :
    ∀ (st : BotState) (e : MediaGroupEntry),
      st.media_groups = [((u.id, g), e)] → e.last_update = t →
      ∃ cap,
        (run today st tr).1.db = st.db ∧
        (run today st tr).1.pending = st.pending ∧
        (run today st tr).1.reasons_pending = st.reasons_pending ∧
        (run today st tr).1.admin_pending = st.admin_pending ∧
        (run today st tr).1.media_groups = [((u.id, g),
          { file_ids := e.file_ids ++ xs.map (fun x => x.fid),
            caption := cap,
            last_update := lastT t xs,
            pending_snapshot := e.pending_snapshot,
            uid := e.uid })] ∧
        (run today st tr).2 = [] := by
  induction hb with
  | done t =>
    intro st e hm hl
    refine ⟨e.caption, rfl, rfl, rfl, rfl, ?_, rfl⟩
    rw [show (run today st []).1 = st from rfl, hm]
    obtain ⟨f, c, l, p, uu⟩ := e
    simp only at hl
    subst hl
    simp [lastT]
  | sweep t s xs tr hs hb ih =>
    intro st e hm hl
    have hq : ¬(s - e.last_update > 1.5) := by
      rw [hl]
      intro hcon
      linarith
    have hstep : step today st (Event.sweep s) = (st, []) :=
      process_singleton_fresh today s st _ e hm hq
    obtain ⟨cap, h1, h2, h3, h4, h5, h6⟩ := ih st e hm hl
    have hrr : run today st (Event.sweep s :: tr) = run today st tr := by
      rw [run, hstep]
      simp
    exact ⟨cap, by rw [hrr]; exact h1, by rw [hrr]; exact h2, by rw [hrr]; exact h3,
           by rw [hrr]; exact h4, by rw [hrr]; exact h5, by rw [hrr]; exact h6⟩
  | item t x xs tr hx hb ih =>
    intro st e hm hl
    have halo : alookup (u.id, g) st.media_groups = some e := by
      rw [hm]; simp [alookup]
    have hstep : step today st (burstPhoto u g x) =
        ({ st with media_groups := [((u.id, g),
            { e with file_ids := e.file_ids ++ [x.fid],
                     caption := if x.cap ≠ "" then x.cap else e.caption,
                     last_update := x.t })] }, []) := by
      simp only [step, burstPhoto, handle_photo, halo, hm, aset_singleton_same]
      simp [alookup]
    obtain ⟨cap, h1, h2, h3, h4, h5, h6⟩ := ih
      ({ st with media_groups := [((u.id, g),
          { e with file_ids := e.file_ids ++ [x.fid],
                   caption := if x.cap ≠ "" then x.cap else e.caption,
                   last_update := x.t })] })
      ({ e with file_ids := e.file_ids ++ [x.fid],
                caption := if x.cap ≠ "" then x.cap else e.caption,
                last_update := x.t }) rfl rfl
    have hrr : run today st (burstPhoto u g x :: tr) =
        ((run today ({ st with media_groups := [((u.id, g),
            { e with file_ids := e.file_ids ++ [x.fid],
                     caption := if x.cap ≠ "" then x.cap else e.caption,
                     last_update := x.t })] }) tr).1,
         (run today ({ st with media_groups := [((u.id, g),
            { e with file_ids := e.file_ids ++ [x.fid],
                     caption := if x.cap ≠ "" then x.cap else e.caption,
                     last_update := x.t })] }) tr).2) := by
      rw [run, hstep]
      simp
    refine ⟨cap, ?_, ?_, ?_, ?_, ?_, ?_⟩
    · rw [hrr]; exact h1
    · rw [hrr]; exact h2
    · rw [hrr]; exact h3
    · rw [hrr]; exact h4
    · rw [hrr, h5]
      simp [lastT, List.append_assoc]
    · rw [hrr]; exact h6


theorem finalize_group_parts (today : String) (now : Rat) (st : BotState)
    (key : Nat × String) (e : MediaGroupEntry)
    (hm : st.media_groups = [(key, e)]) :
    (finalize_group today now st key e).1.db.submissions =
      st.db.submissions ++ [mk_album_sub e today now] ∧
    (finalize_group today now st key e).1.media_groups = [] ∧
    (finalize_group today now st key e).2 =
      Emission.submissionMade Branch.album (mk_album_sub e today now) := by
  refine ⟨?_, ?_, rfl⟩
  · show (if (mk_album_sub e today now).type = "conspect" then _ else _ : DB).submissions = _
    split <;> simp [add_submission, ensure_user_submissions]
  · show aerase key st.media_groups = []
    rw [hm]
    simp [aerase]

/-- C1: N photos sharing one burst id, the first arriving into an empty
aggregator and each subsequent one within the quiet interval (1.5) of the
previous — with the periodic sweep firing at arbitrary compliant moments —
produce, once a sweep fires more than 1.5 after the last item, exactly one
Submission: content_type is photo_album and photo_file_id is the
semicolon-join of all N content references in arrival order.  The buffer is
gone afterwards, so no further sweep can emit again. -/
theorem C1_burst_single_submission (today : String) (u : UserRec) (g : String)
    (x : BurstItem) (xs : List BurstItem) (st0 : BotState)
    (h0 : st0.media_groups = [])
    (pre : List Rat) (mid : List Event) (hmid : BurstMid u g x.t xs mid)
    (T : Rat) (hT : lastT x.t xs + 1.5 < T) (post : List Rat) :
    ∃ summary,
      (run today st0 (pre.map Event.sweep ++ burstPhoto u g x ::
          (mid ++ Event.sweep T :: post.map Event.sweep))).1.db.submissions =
        st0.db.submissions ++
          [{ user_id := u.id,
             type := snapType (alookup u.id st0.pending),
             sect := snapSection (alookup u.id st0.pending),
             topic_id := (snapTopic (alookup u.id st0.pending)).id,
             topic_title := (snapTopic (alookup u.id st0.pending)).title,
             content_type := "photo_album",
             content_summary := summary,
             photo_file_id := String.intercalate ";" (x.fid :: xs.map (fun y => y.fid)),
             message_id := none, date := today, ts := T }] ∧
      (run today st0 (pre.map Event.sweep ++ burstPhoto u g x ::
          (mid ++ Event.sweep T :: post.map Event.sweep))).1.media_groups = [] ∧
      (run today st0 (pre.map Event.sweep ++ burstPhoto u g x ::
          (mid ++ Event.sweep T :: post.map Event.sweep))).2 =
        [Emission.submissionMade Branch.album
          { user_id := u.id,
            type := snapType (alookup u.id st0.pending),
            sect := snapSection (alookup u.id st0.pending),
            topic_id := (snapTopic (alookup u.id st0.pending)).id,
            topic_title := (snapTopic (alookup u.id st0.pending)).title,
            content_type := "photo_album",
            content_summary := summary,
            photo_file_id := String.intercalate ";" (x.fid :: xs.map (fun y => y.fid)),
            message_id := none, date := today, ts := T }] := by
  have halo0 : alookup (u.id, g) st0.media_groups = none := by rw [h0]; rfl
  have hstep1 : step today st0 (burstPhoto u g x) =
      ({ st0 with media_groups := [((u.id, g),
          { file_ids := [x.fid], caption := x.cap, last_update := x.t,
            pending_snapshot := alookup u.id st0.pending, uid := u.id })] }, []) := by
    simp only [step, burstPhoto, handle_photo, halo0, h0]
    rfl
  obtain ⟨cap, h1, h2, h3, h4, h5, h6⟩ := burstMid_run today u g hmid
    ({ st0 with media_groups := [((u.id, g),
        { file_ids := [x.fid], caption := x.cap, last_update := x.t,
          pending_snapshot := alookup u.id st0.pending, uid := u.id })] })
    ({ file_ids := [x.fid], caption := x.cap, last_update := x.t,
       pending_snapshot := alookup u.id st0.pending, uid := u.id }) rfl rfl
  have hq : T - (lastT x.t xs) > 1.5 := by linarith
  have hfin := finalize_group_parts today T
    (run today ({ st0 with media_groups := [((u.id, g),
        { file_ids := [x.fid], caption := x.cap, last_update := x.t,
          pending_snapshot := alookup u.id st0.pending, uid := u.id })] }) mid).1
    (u.id, g)
    ({ file_ids := [x.fid] ++ xs.map (fun y => y.fid), caption := cap,
       last_update := lastT x.t xs,
       pending_snapshot := alookup u.id st0.pending, uid := u.id }) h5
  have hstep2 := process_singleton_final today T
    (run today ({ st0 with media_groups := [((u.id, g),
        { file_ids := [x.fid], caption := x.cap, last_update := x.t,
          pending_snapshot := alookup u.id st0.pending, uid := u.id })] }) mid).1
    (u.id, g)
    ({ file_ids := [x.fid] ++ xs.map (fun y => y.fid), caption := cap,
       last_update := lastT x.t xs,
       pending_snapshot := alookup u.id st0.pending, uid := u.id }) h5 hq
  have hA : run today st0 (pre.map Event.sweep ++ burstPhoto u g x ::
      (mid ++ Event.sweep T :: post.map Event.sweep)) =
      ((run today st0 (burstPhoto u g x ::
         (mid ++ Event.sweep T :: post.map Event.sweep))).1,
       (run today st0 (burstPhoto u g x ::
         (mid ++ Event.sweep T :: post.map Event.sweep))).2) := by
    rw [run_append, run_sweeps_empty today pre st0 h0]
    simp
  have hB : run today st0 (burstPhoto u g x ::
      (mid ++ Event.sweep T :: post.map Event.sweep)) =
      ((run today ({ st0 with media_groups := [((u.id, g), { file_ids := [x.fid], caption := x.cap, last_update := x.t, pending_snapshot := alookup u.id st0.pending, uid := u.id })] } : BotState) (mid ++ Event.sweep T :: post.map Event.sweep)).1,
       (run today ({ st0 with media_groups := [((u.id, g), { file_ids := [x.fid], caption := x.cap, last_update := x.t, pending_snapshot := alookup u.id st0.pending, uid := u.id })] } : BotState) (mid ++ Event.sweep T :: post.map Event.sweep)).2) := by
    conv_lhs => rw [run]
    rw [hstep1]
    simp
  have hC : run today ({ st0 with media_groups := [((u.id, g), { file_ids := [x.fid], caption := x.cap, last_update := x.t, pending_snapshot := alookup u.id st0.pending, uid := u.id })] } : BotState) (mid ++ Event.sweep T :: post.map Event.sweep) =
      ((run today (run today ({ st0 with media_groups := [((u.id, g), { file_ids := [x.fid], caption := x.cap, last_update := x.t, pending_snapshot := alookup u.id st0.pending, uid := u.id })] } : BotState) mid).1 (Event.sweep T :: post.map Event.sweep)).1,
       (run today (run today ({ st0 with media_groups := [((u.id, g), { file_ids := [x.fid], caption := x.cap, last_update := x.t, pending_snapshot := alookup u.id st0.pending, uid := u.id })] } : BotState) mid).1 (Event.sweep T :: post.map Event.sweep)).2) := by
    rw [run_append, h6]
    simp
  have hD : run today (run today ({ st0 with media_groups := [((u.id, g), { file_ids := [x.fid], caption := x.cap, last_update := x.t, pending_snapshot := alookup u.id st0.pending, uid := u.id })] } : BotState) mid).1 (Event.sweep T :: post.map Event.sweep) =
      ((run today (finalize_group today T (run today ({ st0 with media_groups := [((u.id, g), { file_ids := [x.fid], caption := x.cap, last_update := x.t, pending_snapshot := alookup u.id st0.pending, uid := u.id })] } : BotState) mid).1 (u.id, g) ({ file_ids := [x.fid] ++ xs.map (fun y => y.fid), caption := cap, last_update := lastT x.t xs, pending_snapshot := alookup u.id st0.pending, uid := u.id } : MediaGroupEntry)).1 (post.map Event.sweep)).1,
       (finalize_group today T (run today ({ st0 with media_groups := [((u.id, g), { file_ids := [x.fid], caption := x.cap, last_update := x.t, pending_snapshot := alookup u.id st0.pending, uid := u.id })] } : BotState) mid).1 (u.id, g) ({ file_ids := [x.fid] ++ xs.map (fun y => y.fid), caption := cap, last_update := lastT x.t xs, pending_snapshot := alookup u.id st0.pending, uid := u.id } : MediaGroupEntry)).2 ::
         (run today (finalize_group today T (run today ({ st0 with media_groups := [((u.id, g), { file_ids := [x.fid], caption := x.cap, last_update := x.t, pending_snapshot := alookup u.id st0.pending, uid := u.id })] } : BotState) mid).1 (u.id, g) ({ file_ids := [x.fid] ++ xs.map (fun y => y.fid), caption := cap, last_update := lastT x.t xs, pending_snapshot := alookup u.id st0.pending, uid := u.id } : MediaGroupEntry)).1 (post.map Event.sweep)).2) := by
    conv_lhs => rw [run]
    rw [show step today (run today ({ st0 with media_groups := [((u.id, g), { file_ids := [x.fid], caption := x.cap, last_update := x.t, pending_snapshot := alookup u.id st0.pending, uid := u.id })] } : BotState) mid).1 (Event.sweep T) = process_media_groups today (run today ({ st0 with media_groups := [((u.id, g), { file_ids := [x.fid], caption := x.cap, last_update := x.t, pending_snapshot := alookup u.id st0.pending, uid := u.id })] } : BotState) mid).1 T from rfl,
        hstep2]
    simp
  have hE : run today (finalize_group today T (run today ({ st0 with media_groups := [((u.id, g), { file_ids := [x.fid], caption := x.cap, last_update := x.t, pending_snapshot := alookup u.id st0.pending, uid := u.id })] } : BotState) mid).1 (u.id, g) ({ file_ids := [x.fid] ++ xs.map (fun y => y.fid), caption := cap, last_update := lastT x.t xs, pending_snapshot := alookup u.id st0.pending, uid := u.id } : MediaGroupEntry)).1 (post.map Event.sweep) = ((finalize_group today T (run today ({ st0 with media_groups := [((u.id, g), { file_ids := [x.fid], caption := x.cap, last_update := x.t, pending_snapshot := alookup u.id st0.pending, uid := u.id })] } : BotState) mid).1 (u.id, g) ({ file_ids := [x.fid] ++ xs.map (fun y => y.fid), caption := cap, last_update := lastT x.t xs, pending_snapshot := alookup u.id st0.pending, uid := u.id } : MediaGroupEntry)).1, []) :=
    run_sweeps_empty today post (finalize_group today T (run today ({ st0 with media_groups := [((u.id, g), { file_ids := [x.fid], caption := x.cap, last_update := x.t, pending_snapshot := alookup u.id st0.pending, uid := u.id })] } : BotState) mid).1 (u.id, g) ({ file_ids := [x.fid] ++ xs.map (fun y => y.fid), caption := cap, last_update := lastT x.t xs, pending_snapshot := alookup u.id st0.pending, uid := u.id } : MediaGroupEntry)).1 hfin.2.1
  refine ⟨(if cap = "" then
      pyCat (pyCat "Альбом из " (toString ([x.fid] ++ xs.map (fun y => y.fid)).length)) " фото"
    else cap), ?_, ?_, ?_⟩
  · rw [hA, hB, hC, hD]
    show (run today (finalize_group today T (run today ({ st0 with media_groups := [((u.id, g), { file_ids := [x.fid], caption := x.cap, last_update := x.t, pending_snapshot := alookup u.id st0.pending, uid := u.id })] } : BotState) mid).1 (u.id, g) ({ file_ids := [x.fid] ++ xs.map (fun y => y.fid), caption := cap, last_update := lastT x.t xs, pending_snapshot := alookup u.id st0.pending, uid := u.id } : MediaGroupEntry)).1 (post.map Event.sweep)).1.db.submissions = _
    rw [hE]
    show ((finalize_group today T (run today ({ st0 with media_groups := [((u.id, g), { file_ids := [x.fid], caption := x.cap, last_update := x.t, pending_snapshot := alookup u.id st0.pending, uid := u.id })] } : BotState) mid).1 (u.id, g) ({ file_ids := [x.fid] ++ xs.map (fun y => y.fid), caption := cap, last_update := lastT x.t xs, pending_snapshot := alookup u.id st0.pending, uid := u.id } : MediaGroupEntry)).1).db.submissions = _
    rw [hfin.1, h1]
    rfl
  · rw [hA, hB, hC, hD]
    show (run today (finalize_group today T (run today ({ st0 with media_groups := [((u.id, g), { file_ids := [x.fid], caption := x.cap, last_update := x.t, pending_snapshot := alookup u.id st0.pending, uid := u.id })] } : BotState) mid).1 (u.id, g) ({ file_ids := [x.fid] ++ xs.map (fun y => y.fid), caption := cap, last_update := lastT x.t xs, pending_snapshot := alookup u.id st0.pending, uid := u.id } : MediaGroupEntry)).1 (post.map Event.sweep)).1.media_groups = _
    rw [hE]
    exact hfin.2.1
  · rw [hA, hB, hC, hD]
    show (finalize_group today T (run today ({ st0 with media_groups := [((u.id, g), { file_ids := [x.fid], caption := x.cap, last_update := x.t, pending_snapshot := alookup u.id st0.pending, uid := u.id })] } : BotState) mid).1 (u.id, g) ({ file_ids := [x.fid] ++ xs.map (fun y => y.fid), caption := cap, last_update := lastT x.t xs, pending_snapshot := alookup u.id st0.pending, uid := u.id } : MediaGroupEntry)).2 ::
        (run today (finalize_group today T (run today ({ st0 with media_groups := [((u.id, g), { file_ids := [x.fid], caption := x.cap, last_update := x.t, pending_snapshot := alookup u.id st0.pending, uid := u.id })] } : BotState) mid).1 (u.id, g) ({ file_ids := [x.fid] ++ xs.map (fun y => y.fid), caption := cap, last_update := lastT x.t xs, pending_snapshot := alookup u.id st0.pending, uid := u.id } : MediaGroupEntry)).1 (post.map Event.sweep)).2 = _
    rw [hE, hfin.2.2]
    rfl


def uC1 : UserRec := ⟨1, "", ""⟩

def stC1 : BotState :=
  ⟨⟨[], [], [], []⟩,
   [(1, { type := "dz", sect := some "Основы Питона",
          topic := some ⟨"op1", "Вводный урок"⟩, ts := 0 })], [], [], []⟩

/-- C1 witness: the three-photo burst of the specification scenario,
sent at t = 0, 1, 2 during a homework flow, swept at t = 4. -/
theorem C1_witness :
    ∃ summary,
      (run "2026-01-01" stC1 (([] : List Rat).map Event.sweep ++
          burstPhoto uC1 "g1" ⟨"f1", "", 0⟩ ::
          ([burstPhoto uC1 "g1" ⟨"f2", "", 1⟩, burstPhoto uC1 "g1" ⟨"f3", "вот", 2⟩] ++
            Event.sweep 4 :: ([] : List Rat).map Event.sweep))).1.db.submissions =
        stC1.db.submissions ++
          [{ user_id := 1, type := "dz", sect := "Основы Питона", topic_id := "op1",
             topic_title := "Вводный урок", content_type := "photo_album",
             content_summary := summary, photo_file_id := "f1;f2;f3",
             message_id := none, date := "2026-01-01", ts := 4 }] ∧
      (run "2026-01-01" stC1 (([] : List Rat).map Event.sweep ++
          burstPhoto uC1 "g1" ⟨"f1", "", 0⟩ ::
          ([burstPhoto uC1 "g1" ⟨"f2", "", 1⟩, burstPhoto uC1 "g1" ⟨"f3", "вот", 2⟩] ++
            Event.sweep 4 :: ([] : List Rat).map Event.sweep))).1.media_groups = [] ∧
      (run "2026-01-01" stC1 (([] : List Rat).map Event.sweep ++
          burstPhoto uC1 "g1" ⟨"f1", "", 0⟩ ::
          ([burstPhoto uC1 "g1" ⟨"f2", "", 1⟩, burstPhoto uC1 "g1" ⟨"f3", "вот", 2⟩] ++
            Event.sweep 4 :: ([] : List Rat).map Event.sweep))).2 =
        [Emission.submissionMade Branch.album
          { user_id := 1, type := "dz", sect := "Основы Питона", topic_id := "op1",
            topic_title := "Вводный урок", content_type := "photo_album",
            content_summary := summary, photo_file_id := "f1;f2;f3",
            message_id := none, date := "2026-01-01", ts := 4 }] :=
  C1_burst_single_submission "2026-01-01" uC1 "g1" ⟨"f1", "", 0⟩
    [⟨"f2", "", 1⟩, ⟨"f3", "вот", 2⟩] stC1 rfl []
    [burstPhoto uC1 "g1" ⟨"f2", "", 1⟩, burstPhoto uC1 "g1" ⟨"f3", "вот", 2⟩]
    (BurstMid.item 0 ⟨"f2", "", 1⟩ [⟨"f3", "вот", 2⟩] [burstPhoto uC1 "g1" ⟨"f3", "вот", 2⟩]
      (by norm_num)
      (BurstMid.item 1 ⟨"f3", "вот", 2⟩ [] [] (by norm_num) (BurstMid.done 2)))
    4 (by norm_num [lastT]) []



end BotLEV
